import Mathlib

/-!
Verification development for `src/static/wasm/my_sim.cpp`: a minimal
animation demo.  The class `MySim` holds three scalar fields
(`speed`, `size`, `myVal`), an `update` method advancing `myVal` by
`dt * speed`, and a `draw` method emitting a reference grid and a sampled
parametric "butterfly" curve scaled by `size`.  A per-frame callback
`UpdateDrawFrame` invokes `update` then `draw` on a global instance when
that instance is non-null.

Floating-point scalars of the source are embedded as real numbers;
the transcendental functions (`sin`, `cos`, `exp`, `pow`) are their real
counterparts.  The `Animator anim` helper member lives in a header that is
not part of this repository and none of the specified behaviour reads or
writes it, so it is omitted from the state record.  The sampler
`Draw::Parametric` (also external) evaluates the two coordinate closures at
a sequence of parameter values in `[0, 50]`; we keep the sample positions
abstract as a list of parameter values.
-/

open Real

/-- State of the simulation: the three public scalar fields of class
`MySim` in `my_sim.cpp` (lines 8-10). -/
structure MySim where
  speed : ℝ
  size : ℝ
  myVal : ℝ

/-- Initial state produced by `new MySim()` in `main`: the in-class field
initializers `speed = 1.0f`, `size = 2.0f`, `myVal = 0.0f`. -/
def MySim.init : MySim := { speed := 1, size := 2, myVal := 0 }

/-- Embedding of `MySim::update` (lines 12-15): `myVal += dt * speed`.
The call `anim.update(dt)` touches only the omitted external helper. -/
def MySim.update (s : MySim) (dt : ℝ) : MySim :=
  { s with myVal := s.myVal + dt * s.speed }

/-- Running a whole sequence of frame updates. -/
def MySim.runUpdates (s : MySim) (dts : List ℝ) : MySim :=
  dts.foldl MySim.update s

/-- The x-coordinate closure passed to `Draw::Parametric` (line 23 of the
source): `sin(t) * (exp(cos(t)) - 2*cos(4*t) - pow(sin(t/12.0f), 5)) * (size * 0.5f)`. -/
noncomputable def curveX (size t : ℝ) : ℝ :=
  Real.sin t * (Real.exp (Real.cos t) - 2 * Real.cos (4 * t) - (Real.sin (t / 12)) ^ 5)
    * (size * 0.5)

/-- The y-coordinate closure passed to `Draw::Parametric` (line 24 of the
source): `cos(t) * (exp(cos(t)) - 2*cos(4*t) - pow(sin(t/12.0f), 5)) * (size * 0.5f)`. -/
noncomputable def curveY (size t : ℝ) : ℝ :=
  Real.cos t * (Real.exp (Real.cos t) - 2 * Real.cos (4 * t) - (Real.sin (t / 12)) ^ 5)
    * (size * 0.5)

/-- The curve point sampled at parameter `t` by `MySim::draw`. -/
noncomputable def MySim.curvePoint (s : MySim) (t : ℝ) : ℝ × ℝ :=
  (curveX s.size t, curveY s.size t)

/-- A primitive emitted during a draw pass. -/
inductive DrawCmd where
  | grid (slices spacing : ℝ)
  | point (p : ℝ × ℝ)

/-- Embedding of `MySim::draw` (lines 17-30): it emits `Draw::Grid(10.0f, 1.0f)`
and then the curve sampled at the parameter values `ts` chosen by the external
sampler `Draw::Parametric` over `[0, 50]`. -/
noncomputable def MySim.drawOutput (s : MySim) (ts : List ℝ) : List DrawCmd :=
  DrawCmd.grid 10 1 :: ts.map (fun t => DrawCmd.point (s.curvePoint t))

/-- Embedding of the per-frame callback `UpdateDrawFrame` (lines 35-40): if the
global `simInstance` is null it does nothing; otherwise it calls `update` with
the frame time and then `draw`, returning the new instance state together with
the emitted draw commands. -/
noncomputable def UpdateDrawFrame (inst : Option MySim) (dt : ℝ) (ts : List ℝ) :
    Option MySim × List DrawCmd :=
  match inst with
  | none => (none, [])
  | some s =>
    let s' := s.update dt
    (some s', s'.drawOutput ts)

/-- Curve x-coordinate modelled from the spec text: the first component of
`r(t) = (size/2) * ( sin(t)*(e^cos(t) - 2cos(4t) - sin(t/12)^5) , ... )`. -/
noncomputable def specCurveX (size t : ℝ) : ℝ :=
  size / 2 * (Real.sin t * (Real.exp (Real.cos t) - 2 * Real.cos (4 * t)
    - (Real.sin (t / 12)) ^ 5))

/-- Curve y-coordinate modelled from the spec text: the second component of
`r(t)`. -/
noncomputable def specCurveY (size t : ℝ) : ℝ :=
  size / 2 * (Real.cos t * (Real.exp (Real.cos t) - 2 * Real.cos (4 * t)
    - (Real.sin (t / 12)) ^ 5))

/-- C1: for every `t` in `[0, 50]` and every `size`, the sampled curve point
equals the spec formula `r(t)`: the x coordinate is
`sin(t)*(exp(cos(t)) - 2*cos(4*t) - sin(t/12)^5)*(size/2)` and the y
coordinate is `cos(t)*(exp(cos(t)) - 2*cos(4*t) - sin(t/12)^5)*(size/2)`. -/
theorem curvePoint_eq_spec (size t : ℝ) (ht : t ∈ Set.Icc (0 : ℝ) 50) :
    curveX size t = specCurveX size t ∧ curveY size t = specCurveY size t := by
  constructor <;> · simp only [curveX, curveY, specCurveX, specCurveY]; ring

/-- Witness for C1 at `size = 3`, `t = 1`. -/
theorem curvePoint_eq_spec_witness :
    (1 : ℝ) ∈ Set.Icc (0 : ℝ) 50 ∧
      (curveX 3 1 = specCurveX 3 1 ∧ curveY 3 1 = specCurveY 3 1) := by
  refine ⟨by constructor <;> norm_num, curvePoint_eq_spec 3 1 ?_⟩
  constructor <;> norm_num

/-- C2: for every state and every `dt`, `update dt` changes `myVal` to its old
value plus `dt * speed`, leaves `speed` and `size` unchanged, and is a total
function (no failure modes, no return value beyond the new state). -/
theorem update_effect (s : MySim) (dt : ℝ) :
    (s.update dt).myVal = s.myVal + dt * s.speed ∧
      (s.update dt).speed = s.speed ∧ (s.update dt).size = s.size :=
  ⟨rfl, rfl, rfl⟩

/-- C3: for all `dt1, dt2 ≥ 0` and a fixed `speed`, `update dt1` followed by
`update dt2` yields the same `myVal` as the single call `update (dt1 + dt2)`. -/
theorem update_additive (s : MySim) (dt1 dt2 : ℝ) (h1 : 0 ≤ dt1) (h2 : 0 ≤ dt2) :
    ((s.update dt1).update dt2).myVal = (s.update (dt1 + dt2)).myVal := by
  simp only [MySim.update]
  ring

/-- Witness for C3 at `s = init`, `dt1 = 1`, `dt2 = 2`. -/
theorem update_additive_witness :
    (0 : ℝ) ≤ 1 ∧ (0 : ℝ) ≤ 2 ∧
      ((MySim.init.update 1).update 2).myVal = (MySim.init.update (1 + 2)).myVal :=
  ⟨by norm_num, by norm_num, update_additive MySim.init 1 2 (by norm_num) (by norm_num)⟩

/-- C4: for every fixed `t` and scale values `k`, `k0` with `k0 ≠ 0`, the
curve point sampled with `size = k` is exactly `k / k0` times the point
sampled with `size = k0` in both coordinates, and the sampled point does not
depend on `speed` (or on `myVal`): two states with the same `size` sample
the same point at `t`. -/
theorem curve_scaling (t k k0 sp1 sp2 v1 v2 : ℝ) (hk0 : k0 ≠ 0) :
    curveX k t = k / k0 * curveX k0 t ∧ curveY k t = k / k0 * curveY k0 t ∧
      (MySim.mk sp1 k v1).curvePoint t = (MySim.mk sp2 k v2).curvePoint t := by
  refine ⟨?_, ?_, rfl⟩ <;>
    · simp only [curveX, curveY]
      field_simp
      ring

/-- Witness for C4 at `t = 1`, `k = 4`, `k0 = 2`, speeds `1` and `5`,
accumulated values `0` and `7`. -/
theorem curve_scaling_witness :
    (2 : ℝ) ≠ 0 ∧
      (curveX 4 1 = 4 / 2 * curveX 2 1 ∧ curveY 4 1 = 4 / 2 * curveY 2 1 ∧
        (MySim.mk 1 4 0).curvePoint 1 = (MySim.mk 5 4 7).curvePoint 1) :=
  ⟨by norm_num, curve_scaling 1 4 2 1 5 0 7 (by norm_num)⟩

/-- C5: sampling the curve at `t = 0` with `size = 2` yields the point
`(0, e - 2)`, where `e - 2` is within `0.0001` of `0.71828`, and with
`size = 4` at the same `t = 0` it yields exactly double that point,
`(0, 2(e - 2))`, within `0.001` of `1.437`. -/
theorem curve_at_zero :
    curveX 2 0 = 0 ∧ curveY 2 0 = Real.exp 1 - 2 ∧
      curveX 4 0 = 0 ∧ curveY 4 0 = 2 * (Real.exp 1 - 2) ∧
      |Real.exp 1 - 2 - 0.71828| < 0.0001 ∧
      |2 * (Real.exp 1 - 2) - 1.437| < 0.001 := by
  have hgt := Real.exp_one_gt_d9
  have hlt := Real.exp_one_lt_d9
  refine ⟨?_, ?_, ?_, ?_, ?_, ?_⟩
  · simp [curveX]
  · norm_num [curveY]
  · simp [curveX]
  · norm_num [curveY]
    try ring
  · rw [abs_lt]
    constructor <;> nlinarith
  · rw [abs_lt]
    constructor <;> nlinarith

/-- C6: the state created at process start (`new MySim()` in `main`) holds
exactly the in-class default values `speed = 1.0`, `size = 2.0`,
`myVal = 0.0`; no state persists across process runs, so every run starts
from this same state. -/
theorem init_defaults :
    MySim.init.speed = 1 ∧ MySim.init.size = 2 ∧ MySim.init.myVal = 0 :=
  ⟨rfl, rfl, rfl⟩

/-- C7: on every frame in which the callback runs on a non-null instance, it
invokes `update` strictly before `draw`: the draw commands it emits are
computed from the post-update state, and the state it leaves behind is
exactly that post-update state (nothing else touches the state in
between). -/
theorem updateDrawFrame_order (s : MySim) (dt : ℝ) (ts : List ℝ) :
    UpdateDrawFrame (some s) dt ts =
      (some (s.update dt), (s.update dt).drawOutput ts) :=
  rfl

/-- C8: `myVal` starts at `0`, and for every sequence of updates with all
`dt ≥ 0` and `speed ≥ 0` it never decreases. -/
theorem myVal_monotone (s : MySim) (dts : List ℝ) (hs : 0 ≤ s.speed)
    (hdts : ∀ dt ∈ dts, 0 ≤ dt) :
    MySim.init.myVal = 0 ∧ s.myVal ≤ (s.runUpdates dts).myVal := by
  refine ⟨rfl, ?_⟩
  induction dts generalizing s with
  | nil => simp [MySim.runUpdates]
  | cons dt rest ih =>
    have hdt : 0 ≤ dt := hdts dt (List.mem_cons_self _ _)
    have hstep : s.myVal ≤ (s.update dt).myVal := by
      simp only [MySim.update]
      nlinarith
    have htail : (s.update dt).myVal ≤ ((s.update dt).runUpdates rest).myVal :=
      ih (s.update dt) hs (fun d hd => hdts d (List.mem_cons_of_mem _ hd))
    calc s.myVal ≤ (s.update dt).myVal := hstep
      _ ≤ ((s.update dt).runUpdates rest).myVal := htail

/-- Witness for C8 at `s = init`, `dts = [1, 2]`. -/
theorem myVal_monotone_witness :
    (0 : ℝ) ≤ MySim.init.speed ∧ (∀ dt ∈ [(1 : ℝ), 2], 0 ≤ dt) ∧
      (MySim.init.myVal = 0 ∧
        MySim.init.myVal ≤ (MySim.init.runUpdates [1, 2]).myVal) := by
  refine ⟨by norm_num [MySim.init], ?_, ?_⟩
  · intro dt hdt
    simp only [List.mem_cons, List.not_mem_nil, or_false] at hdt
    rcases hdt with h | h <;> rw [h] <;> norm_num
  · refine myVal_monotone MySim.init [1, 2] (by norm_num [MySim.init]) ?_
    intro dt hdt
    simp only [List.mem_cons, List.not_mem_nil, or_false] at hdt
    rcases hdt with h | h <;> rw [h] <;> norm_num

/-- C9: the draw output depends only on `size`: two states agreeing on
`size` (but differing arbitrarily in `speed` and `myVal`) produce identical
draw command sequences, and running any number of updates never changes
what is drawn. -/
theorem draw_depends_only_on_size (s s' : MySim) (h : s.size = s'.size)
    (ts dts : List ℝ) :
    s.drawOutput ts = s'.drawOutput ts ∧
      (s.runUpdates dts).drawOutput ts = s.drawOutput ts := by
  have hsize : ∀ (u : MySim) (l : List ℝ), (u.runUpdates l).size = u.size := by
    intro u l
    induction l generalizing u with
    | nil => rfl
    | cons d rest ih => exact ih (u.update d)
  have hcongr : ∀ u u' : MySim, u.size = u'.size →
      u.drawOutput ts = u'.drawOutput ts := by
    intro u u' hu
    simp [MySim.drawOutput, MySim.curvePoint, hu]
  exact ⟨hcongr s s' h, hcongr _ s (hsize s dts)⟩

/-- Witness for C9 with states `⟨1, 2, 0⟩` and `⟨5, 2, 7⟩`, samples at
`ts = [0, 1]`, updates `dts = [3]`. -/
theorem draw_depends_only_on_size_witness :
    (MySim.mk 1 2 0).size = (MySim.mk 5 2 7).size ∧
      ((MySim.mk 1 2 0).drawOutput [0, 1] = (MySim.mk 5 2 7).drawOutput [0, 1] ∧
        ((MySim.mk 1 2 0).runUpdates [3]).drawOutput [0, 1] =
          (MySim.mk 1 2 0).drawOutput [0, 1]) :=
  ⟨rfl, draw_depends_only_on_size (MySim.mk 1 2 0) (MySim.mk 5 2 7) rfl [0, 1] [3]⟩

/-- C10: when the global instance pointer is null, the per-frame callback is
a safe no-op: it emits no draw commands and the (absent) state is
unchanged. -/
theorem updateDrawFrame_null (dt : ℝ) (ts : List ℝ) :
    UpdateDrawFrame none dt ts = (none, []) :=
  rfl
